import Mathlib

/-!
# Verification of the libaribcaption FreeType text-rendering core

A shallow embedding of `src/renderer/text_renderer_freetype.cpp`: the
OpenType GSUB half-width parser (`LoadGSUBTable`, `ReadScriptFeatureIndices`,
`ReadCoverageTable`), the face resolver (`SetFontFamily`, `LoadFontFace`) and
the glyph renderer (`DrawChar`), together with theorems settling the claims of
the specification against this embedding.

Modelling conventions:
* Byte buffers are `List Nat` with each element a byte value; machine
  arithmetic that can wrap is made explicit (`usub64`, `toUint16`).
* External FreeType and font-provider calls are oracle functions collected in
  an `FTEnv` record; the control flow around them is embedded verbatim.
* Reads of the GSUB buffer are instrumented: `PRes.oob` records that the C++
  code indexed the buffer past its end (undefined behavior), `PRes.hang`
  records a loop in the C++ code that never terminates.  All in-bounds,
  terminating paths produce `PRes.ok`.
-/

/-! ## Byte buffers and instrumented reads -/

/-- Result of running a piece of parsing code: either a value, or evidence
that the C++ source would read out of bounds (`oob`), or evidence that the
C++ source would loop forever (`hang`). -/
inductive PRes (α : Type) where
  | oob
  | hang
  | ok (a : α)
deriving DecidableEq, Repr

def PRes.bind {α β : Type} : PRes α → (α → PRes β) → PRes β
  | .oob, _ => .oob
  | .hang, _ => .hang
  | .ok a, f => f a

@[simp] theorem PRes.bind_ok {α β : Type} (a : α) (f : α → PRes β) :
    PRes.bind (.ok a) f = f a := rfl

@[simp] theorem PRes.bind_oob {α β : Type} (f : α → PRes β) :
    PRes.bind (.oob : PRes α) f = .oob := rfl

@[simp] theorem PRes.bind_hang {α β : Type} (f : α → PRes β) :
    PRes.bind (.hang : PRes α) f = .hang := rfl

/-- `GetUint16` of the source: big-endian 16-bit read of
`data[offset]`, `data[offset+1]`, instrumented for out-of-bounds access. -/
def GetUint16 (data : List Nat) (offset : Nat) : PRes Nat :=
  match data.get? offset, data.get? (offset + 1) with
  | some b0, some b1 => .ok (b0 * 256 + b1)
  | _, _ => .oob

/-- `GetUint32` of the source: big-endian 32-bit read. -/
def GetUint32 (data : List Nat) (offset : Nat) : PRes Nat :=
  match data.get? offset, data.get? (offset + 1), data.get? (offset + 2), data.get? (offset + 3) with
  | some b0, some b1, some b2, some b3 => .ok (((b0 * 256 + b1) * 256 + b2) * 256 + b3)
  | _, _, _, _ => .oob

/-- `GetTag` of the source: `FT_MAKE_TAG(data[o], data[o+1], data[o+2], data[o+3])`,
numerically the same big-endian 32-bit value as `GetUint32`. -/
def GetTag (data : List Nat) (offset : Nat) : PRes Nat :=
  GetUint32 data offset

/-- Cast of an `int` value to `uint16_t` (reduction mod 2^16), as in
`static_cast<uint16_t>(glyph_id + delta_glyph_id)`. -/
def toUint16 (x : Int) : Nat := (Int.emod x 65536).toNat

/-- Sign interpretation of a 16-bit value as `int16_t`, as in `GetInt16`. -/
def toInt16 (n : Nat) : Int := if n < 32768 then (n : Int) else (n : Int) - 65536

/-- Unsigned 64-bit subtraction (`FT_ULong` arithmetic): wraps modulo 2^64.
Used for the source's `gsub_size - 2` size check. -/
def usub64 (a b : Nat) : Nat := (a + (18446744073709551616 - b % 18446744073709551616)) % 18446744073709551616

/-- `FT_MAKE_TAG` on four byte values. -/
def MakeTag (a b c d : Nat) : Nat := ((a * 256 + b) * 256 + c) * 256 + d

/-- OpenType feature tag `hwid` (half width). -/
def kOpenTypeFeatureHalfWidth : Nat := MakeTag 104 119 105 100

/-- OpenType script tag `kana` (Hiragana/Katakana). -/
def kOpenTypeScriptHiraganaKatakana : Nat := MakeTag 107 97 110 97

/-- OpenType language-system tag `JAN ` (Japanese). -/
def kOpenTypeLangSysJapanese : Nat := MakeTag 74 65 78 32

/-! ## The substitution map

`std::unordered_map<FT_UInt, FT_UInt>` is modelled as an association list
with insert-or-overwrite and key lookup. -/

abbrev SubstMap := List (Nat × Nat)

/-- `map.find(k)` on the association list. -/
def mapFind (m : SubstMap) (k : Nat) : Option Nat :=
  (m.find? (fun p => p.1 == k)).map (·.2)

/-- `map[k] = v`: overwrite the binding for `k` if present, else append it. -/
def mapInsert (m : SubstMap) (k v : Nat) : SubstMap :=
  if (m.find? (fun p => p.1 == k)).isSome then
    m.map (fun p => if p.1 == k then (k, v) else p)
  else m ++ [(k, v)]

/-! ## `ReadCoverageTable` (source lines 115-176) -/

/-- Loop body of Coverage Format 1 (source lines 131-137): read
`glyphArray[coverage_index]` for `coverage_index` in `[i, i + remaining)`.
An inner `none` is the source's `return std::nullopt`. -/
def CovFmt1Loop (gsub : List Nat) (base : Nat) : Nat → Nat → PRes (Option (List Nat))
  | _, 0 => .ok (some [])
  | i, r + 1 =>
    if gsub.length < base + i * 2 + 2 then .ok none
    else
      (GetUint16 gsub (base + i * 2)).bind fun g =>
      (CovFmt1Loop gsub base (i + 1) r).bind fun rest =>
      .ok (rest.map (fun l => g :: l))

/-- The glyph IDs of one inclusive range `[start, stop]`. -/
def rangeGlyphs (start stop : Nat) : List Nat :=
  (List.range (stop - start + 1)).map (fun k => start + k)

/-- Loop body of Coverage Format 2 (source lines 156-172).  `covIndex` is
the running coverage index (`uint32_t coverage_index`; it cannot overflow:
at most 65535 ranges each contribute at most 65536).  The inner expansion
loop `for (uint16_t glyph_id = start; glyph_id <= end; glyph_id++)` never
terminates when `end = 0xFFFF`, because `glyph_id` wraps to 0 and the
condition stays true: that case is recorded as `.hang`. -/
def CovFmt2Loop (gsub : List Nat) (base : Nat) : Nat → Nat → Nat → PRes (Option (List Nat))
  | _, 0, _ => .ok (some [])
  | i, r + 1, covIndex =>
    if gsub.length < base + i * 6 + 6 then .ok none
    else
      (GetUint16 gsub (base + i * 6)).bind fun start =>
      (GetUint16 gsub (base + i * 6 + 2)).bind fun stop =>
      (GetUint16 gsub (base + i * 6 + 4)).bind fun sci =>
      if start > stop ∨ sci ≠ covIndex then .ok none
      else if stop = 65535 then .hang
      else
        (CovFmt2Loop gsub base (i + 1) r (covIndex + (stop - start) + 1)).bind fun rest =>
        .ok (rest.map (fun l => rangeGlyphs start stop ++ l))

/-- `ReadCoverageTable` (source lines 115-176).  The outer `PRes` is the
instrumentation; the inner `Option` is the source's
`std::optional<std::vector<uint16_t>>`. -/
def ReadCoverageTable (gsub : List Nat) (offset : Nat) : PRes (Option (List Nat)) :=
  if gsub.length < offset + 2 then .ok none
  else
    (GetUint16 gsub offset).bind fun coverage_format =>
    if coverage_format = 1 then
      if gsub.length < offset + 4 then .ok none
      else
        (GetUint16 gsub (offset + 2)).bind fun glyph_count =>
        CovFmt1Loop gsub (offset + 4) 0 glyph_count
    else if coverage_format = 2 then
      if gsub.length < offset + 4 then .ok none
      else
        (GetUint16 gsub (offset + 2)).bind fun range_count =>
        CovFmt2Loop gsub (offset + 4) 0 range_count 0
    else .ok none

/-! ## `ReadScriptFeatureIndices` (source lines 178-261) -/

/-- Result of the LangSysRecord scan (source lines 228-239): a bounds
failure makes the whole function return `{}` (`fail`); a matching tag
yields its offset; otherwise the default offset stays in effect. -/
inductive LangSysFind where
  | fail
  | found (off : Nat)
  | nomatch
deriving DecidableEq, Repr

/-- LangSysRecord scan (source lines 228-239). -/
def LangSysLoop (gsub : List Nat) (script_offset base reqLang : Nat) : Nat → Nat → PRes LangSysFind
  | _, 0 => .ok .nomatch
  | i, r + 1 =>
    if gsub.length < base + i * 6 + 6 then .ok .fail
    else
      (GetTag gsub (base + i * 6)).bind fun tag =>
      if tag = reqLang then
        (GetUint16 gsub (base + i * 6 + 4)).bind fun v =>
        .ok (.found (script_offset + v))
      else LangSysLoop gsub script_offset base reqLang (i + 1) r

/-- Feature-index read loop (source lines 252-258); `none` is the
source's `return {}`. -/
def FeatureIdxLoop (gsub : List Nat) (base : Nat) : Nat → Nat → PRes (Option (List Nat))
  | _, 0 => .ok (some [])
  | i, r + 1 =>
    if gsub.length < base + i * 2 + 2 then .ok none
    else
      (GetUint16 gsub (base + i * 2)).bind fun v =>
      (FeatureIdxLoop gsub base (i + 1) r).bind fun rest =>
      .ok (rest.map (fun l => v :: l))

/-- Body shared by the two LangSys outcomes of `ScriptLoop` (the source
code from line 240 on), parameterised by the chosen `lang_sys_offset`. -/
def ScriptLangSysBody (gsub : List Nat) (script_offset lang_sys_offset : Nat)
    (onContinue : PRes (List Nat)) : PRes (List Nat) :=
  if lang_sys_offset = script_offset then onContinue
  else if gsub.length < lang_sys_offset + 6 then .ok []
  else
    (GetUint16 gsub (lang_sys_offset + 2)).bind fun required_feature_index =>
    (GetUint16 gsub (lang_sys_offset + 4)).bind fun feature_index_count =>
    (FeatureIdxLoop gsub (lang_sys_offset + 6) 0 feature_index_count).bind fun idxs =>
    match idxs with
    | none => .ok []
    | some l => .ok ((if required_feature_index ≠ 65535 then [required_feature_index] else []) ++ l)

/-- ScriptRecord scan (source lines 210-260). -/
def ScriptLoop (gsub : List Nat) (slo reqScript reqLang : Nat) : Nat → Nat → PRes (List Nat)
  | _, 0 => .ok []
  | i, r + 1 =>
    if gsub.length < slo + 2 + i * 6 + 6 then .ok []
    else
      (GetTag gsub (slo + 2 + i * 6)).bind fun script_tag =>
      if script_tag ≠ reqScript then ScriptLoop gsub slo reqScript reqLang (i + 1) r
      else
        (GetUint16 gsub (slo + 2 + i * 6 + 4)).bind fun so16 =>
        let script_offset := slo + so16
        if gsub.length < script_offset + 4 then .ok []
        else
          (GetUint16 gsub script_offset).bind fun dls16 =>
          (GetUint16 gsub (script_offset + 2)).bind fun lang_sys_count =>
          (LangSysLoop gsub script_offset (script_offset + 4) reqLang 0 lang_sys_count).bind fun ls =>
          match ls with
          | .fail => .ok []
          | .found off =>
              ScriptLangSysBody gsub script_offset off
                (ScriptLoop gsub slo reqScript reqLang (i + 1) r)
          | .nomatch =>
              ScriptLangSysBody gsub script_offset (script_offset + dls16)
                (ScriptLoop gsub slo reqScript reqLang (i + 1) r)

/-- `ReadScriptFeatureIndices` (source lines 178-261). -/
def ReadScriptFeatureIndices (gsub : List Nat) (script_list_offset reqScript reqLang : Nat) :
    PRes (List Nat) :=
  if gsub.length < script_list_offset + 2 then .ok []
  else
    (GetUint16 gsub script_list_offset).bind fun script_count =>
    ScriptLoop gsub script_list_offset reqScript reqLang 0 script_count

/-! ## `LoadGSUBTable` (source lines 264-440) -/

/-- Substitute-glyph-ID loop of Single Substitution Format 2 (source lines
421-432); `none` is the source's `return {}`. -/
def SubstIdLoop (gsub : List Nat) (base : Nat) (cov : List Nat) :
    SubstMap → Nat → Nat → PRes (Option SubstMap)
  | m, _, 0 => .ok (some m)
  | m, i, r + 1 =>
    if gsub.length < base + i * 2 + 2 then .ok none
    else
      (GetUint16 gsub (base + i * 2)).bind fun sid =>
      if cov.length ≤ i then .ok none
      else SubstIdLoop gsub base cov (mapInsert m (cov.getD i 0) sid) (i + 1) r

/-- Subtable loop of a lookup (source lines 357-435).  `lt` is the mutable
`lookup_type` (overwritten by an Extension redirect and carried into the
next iteration, exactly as in the source); a `none` result is the source's
`return {}`. -/
def SubtableLoop (gsub : List Nat) (lookup_offset soo : Nat) (is_ext : Bool) :
    Nat → SubstMap → Nat → Nat → PRes (Option SubstMap)
  | _, m, _, 0 => .ok (some m)
  | lt, m, i, r + 1 =>
    if gsub.length < soo + i * 2 + 2 then .ok none
    else
      (GetUint16 gsub (soo + i * 2)).bind fun off =>
      let st0 := lookup_offset + off
      if gsub.length < st0 + 2 then .ok none
      else
        (GetUint16 gsub st0).bind fun sf0 =>
        -- Extension Substitution redirect (source lines 367-386)
        (if is_ext then
          if sf0 ≠ 1 then .ok (some (lt, st0, sf0, false))   -- `continue`
          else if gsub.length < st0 + 8 then .ok none
          else
            (GetUint16 gsub (st0 + 2)).bind fun elt =>
            (GetUint32 gsub (st0 + 4)).bind fun eo =>
            if gsub.length < st0 + eo + 2 then .ok none
            else
              (GetUint16 gsub (st0 + eo)).bind fun sf1 =>
              .ok (some (elt, st0 + eo, sf1, true))
        else .ok (some (lt, st0, sf0, true)) : PRes (Option (Nat × Nat × Nat × Bool))).bind fun red =>
        match red with
        | none => .ok none
        | some (lt1, st, sf, proceed) =>
          if ¬ proceed then SubtableLoop gsub lookup_offset soo is_ext lt1 m (i + 1) r
          else if lt1 = 1 then
            -- LookupType 1: Single Substitution (source lines 387-434)
            if gsub.length < st + 4 then .ok none
            else
              (GetUint16 gsub (st + 2)).bind fun covOff =>
              (ReadCoverageTable gsub (st + covOff)).bind fun covOpt =>
              match covOpt with
              | none => .ok none
              | some cov =>
                if sf = 1 then
                  if gsub.length < st + 6 then .ok none
                  else
                    (GetUint16 gsub (st + 4)).bind fun d16 =>
                    let m2 := cov.foldl (fun acc g => mapInsert acc g (toUint16 ((g : Int) + toInt16 d16))) m
                    SubtableLoop gsub lookup_offset soo is_ext lt1 m2 (i + 1) r
                else if sf = 2 then
                  -- NB source line 416 reads glyphCount BEFORE the line 417 bounds check
                  (GetUint16 gsub (st + 4)).bind fun glyph_count =>
                  if gsub.length < st + 6 then .ok none
                  else
                    (SubstIdLoop gsub (st + 6) cov m 0 glyph_count).bind fun res =>
                    match res with
                    | none => .ok none
                    | some m2 => SubtableLoop gsub lookup_offset soo is_ext lt1 m2 (i + 1) r
                else SubtableLoop gsub lookup_offset soo is_ext lt1 m (i + 1) r
          else SubtableLoop gsub lookup_offset soo is_ext lt1 m (i + 1) r

/-- Lookup-list-index loop of a feature (source lines 333-436); `none` is
the source's `return {}`.  `feature_count` is used as the bound on the
lookup-list index, exactly as in the source (line 338). -/
def LookupIdxLoop (gsub : List Nat) (llio feature_count llo loo : Nat) :
    SubstMap → Nat → Nat → PRes (Option SubstMap)
  | m, _, 0 => .ok (some m)
  | m, i, r + 1 =>
    if gsub.length < llio + i * 2 + 2 then .ok none
    else
      (GetUint16 gsub (llio + i * 2)).bind fun lli =>
      if lli ≥ feature_count ∨ gsub.length < loo + lli * 2 + 2 then .ok none
      else
        (GetUint16 gsub (loo + lli * 2)).bind fun lo16 =>
        let lookup_offset := llo + lo16
        if gsub.length < lookup_offset + 6 then .ok none
        else
          (GetUint16 gsub lookup_offset).bind fun lt =>
          (GetUint16 gsub (lookup_offset + 2)).bind fun _lookup_flag =>
          (GetUint16 gsub (lookup_offset + 4)).bind fun subtable_count =>
          (SubtableLoop gsub lookup_offset (lookup_offset + 6) (lt == 7) lt m 0 subtable_count).bind fun res =>
          match res with
          | none => .ok none
          | some m2 => LookupIdxLoop gsub llio feature_count llo loo m2 (i + 1) r

/-- FeatureRecord walk (source lines 308-438); `none` is the source's
`return {}`, `some m` the map accumulated when the walk breaks or ends. -/
def FeatureLoop (gsub : List Nat) (reqFeature feature_count flo llo loo : Nat) :
    SubstMap → List Nat → PRes (Option SubstMap)
  | m, [] => .ok (some m)
  | m, fi :: rest =>
    if fi ≥ feature_count ∨ gsub.length < flo + 2 + fi * 6 + 6 then .ok none
    else
      (GetTag gsub (flo + 2 + fi * 6)).bind fun feature_tag =>
      if feature_tag ≠ reqFeature then FeatureLoop gsub reqFeature feature_count flo llo loo m rest
      else
        (GetUint16 gsub (flo + 2 + fi * 6 + 4)).bind fun fo16 =>
        let feature_offset := flo + fo16
        if gsub.length < feature_offset + 4 then .ok none
        else
          (GetUint16 gsub feature_offset).bind fun feature_params_offset =>
          if feature_params_offset ≠ 0 then .ok none
          else
            (GetUint16 gsub (feature_offset + 2)).bind fun lookup_index_count =>
            (LookupIdxLoop gsub (feature_offset + 4) feature_count llo loo m 0 lookup_index_count).bind fun res =>
            match res with
            | none => .ok none
            | some m2 => .ok (some m2)    -- `break`: the walk terminates

/-- `LoadGSUBTable` (source lines 264-440).  The `Option (List Nat)` input
stands for the two `FT_Load_Sfnt_Table` calls: `none` when the face has no
GSUB table (or loading it fails), `some gsub` for a loaded table of
`gsub_size = gsub.length` bytes.  The size check on line 283 is the
source's `gsub_size - 2 < 8` in unsigned (`FT_ULong`) arithmetic, which
wraps for sizes 0 and 1. -/
def LoadGSUBTable (gsubOpt : Option (List Nat)) (required_feature_tag script_tag lang_sys_tag : Nat) :
    PRes SubstMap :=
  match gsubOpt with
  | none => .ok []
  | some gsub =>
    if usub64 gsub.length 2 < 8 then .ok []
    else
      (GetUint16 gsub 4).bind fun script_list_offset =>
      (ReadScriptFeatureIndices gsub script_list_offset script_tag lang_sys_tag).bind fun feature_indices =>
      (GetUint16 gsub 6).bind fun feature_list_offset =>
      (GetUint16 gsub 8).bind fun lookup_list_offset =>
      -- NB source line 301 reads lookup_count at lookup_list_offset BEFORE the line 303 bounds check
      (GetUint16 gsub lookup_list_offset).bind fun _lookup_count =>
      if gsub.length < lookup_list_offset + 2 ∨ gsub.length < feature_list_offset + 2 then .ok []
      else
        (GetUint16 gsub feature_list_offset).bind fun feature_count =>
        (FeatureLoop gsub required_feature_tag feature_count feature_list_offset lookup_list_offset
            (lookup_list_offset + 2) [] feature_indices).bind fun res =>
        match res with
        | none => .ok []
        | some m => .ok m  -- `return half_width_subst_map`

/-! ## Renderer data model

Faces and glyph handles are opaque identifiers; the FreeType library and the
font provider are oracle functions in `FTEnv`. -/

abbrev FTFace := Nat
abbrev FTGlyph := Nat

/-- Modelled from the spec: `FontProviderError` is declared in a public
header not under `src/`; both of these enumerators appear in the source
(`kFontNotFound` at lines 682/721/729/748/756/768, `kOtherError` at line
740), and the spec (section 6) says errors include `FontNotFound` and other
categories. -/
inductive FontProviderError where
  | kFontNotFound
  | kOtherError
deriving DecidableEq, Repr

/-- Modelled from the spec: `TextRenderStatus` is declared in a public
header not under `src/`; the source uses `kOK`, `kCodePointNotFound` and
`kOtherError`, and provider errors are mapped 1:1 into render statuses
(spec section 7). -/
inductive TextRenderStatus where
  | kOK
  | kFontNotFound
  | kCodePointNotFound
  | kOtherError
deriving DecidableEq, Repr

/-- Modelled from the spec: `FontProviderErrorToStatus` is defined outside
`src/`; spec section 7 says font-provider errors are mapped 1:1 into render
statuses. -/
def FontProviderErrorToStatus : FontProviderError → TextRenderStatus
  | .kFontNotFound => .kFontNotFound
  | .kOtherError => .kOtherError

/-- Modelled from the spec (section 3): `FontfaceInfo` as returned by the
font provider; fields are exactly those the source reads. -/
structure FontfaceInfo where
  filename : String
  face_index : Int
  font_data : List Nat
  family_name : String
  postscript_name : String
deriving DecidableEq, Repr

/-- An SFNT name record as returned by `FT_Get_Sfnt_Name`. -/
structure SfntName where
  platform_id : Nat
  name_id : Nat
  bytes : List Nat
deriving DecidableEq, Repr

/-- The fields of `face->size->metrics` the source reads after
`FT_Set_Pixel_Sizes`. -/
structure SizeMetrics where
  ascender : Int
  descender : Int
  x_scale : Int
deriving DecidableEq, Repr

/-- An `FT_BitmapGlyph`: its placement fields and an identifier for its
alpha bitmap. -/
structure BitmapGlyph where
  left : Int
  top : Int
  bmp : Nat
deriving DecidableEq, Repr

/-- Oracle functions standing for the font provider and the FreeType
library.  Each field corresponds to one external call made by the source. -/
structure FTEnv where
  getFontFace : String → Option Nat → Except FontProviderError FontfaceInfo
  newFace : String → Int → Option FTFace
  newMemoryFace : List Nat → Int → Option FTFace
  numFaces : FTFace → Nat
  postscriptName : FTFace → String
  sfntNameCount : FTFace → Nat
  getSfntName : FTFace → Nat → Option SfntName
  utf16beToString : List Nat → Nat → String
  bytesToString : List Nat → String
  getCharIndex : FTFace → Nat → Nat
  gsubTable : FTFace → Option (List Nat)
  setPixelSizes : FTFace → Int → Int → Option SizeMetrics
  underlinePosition : FTFace → Int
  underlineThickness : FTFace → Int
  mulFix : Int → Int → Int
  loadGlyph : FTFace → Nat → Bool
  getGlyph : FTFace → Nat → Option FTGlyph
  glyphToBitmap : FTGlyph → Option BitmapGlyph
  strokeBorder : FTGlyph → Int → FTGlyph

/-- The mutable state of `TextRendererFreetype`: the family list, the two
face slots with their in-memory buffers, the primary face-list index, and
the two cached half-width substitution maps. -/
structure RState where
  font_family : List String
  main_face : Option FTFace
  fallback_face : Option FTFace
  main_face_data : List Nat
  fallback_face_data : List Nat
  main_face_index : Nat
  main_half_width_subst_map : Option SubstMap
  fallback_half_width_subst_map : Option SubstMap
deriving DecidableEq, Repr

/-- A renderer state with no family list, no faces and no cached maps. -/
def emptyRState : RState where
  font_family := []
  main_face := none
  fallback_face := none
  main_face_data := []
  fallback_face_data := []
  main_face_index := 0
  main_half_width_subst_map := none
  fallback_half_width_subst_map := none

/-! ## `SetFontFamily` (source lines 58-74) -/

/-- `TextRendererFreetype::SetFontFamily`.  An empty list is rejected; a
different non-empty list resets the two faces, their data buffers and the
primary face index (source lines 63-70) and stores the new list. -/
def SetFontFamily (s : RState) (font_family : List String) : Bool × RState :=
  if font_family = [] then (false, s)
  else
    let s1 := if s.font_family ≠ [] ∧ s.font_family ≠ font_family then
        { s with main_face := none, fallback_face := none,
                 main_face_data := [], fallback_face_data := [], main_face_index := 0 }
      else s
    (true, { s1 with font_family := font_family })

/-! ## `MatchFontFamilyName` (source lines 650-675) -/

/-- `TT_NAME_ID_FONT_FAMILY`. -/
def TTNameIdFontFamily : Nat := 1

/-- `TT_NAME_ID_FULL_NAME`. -/
def TTNameIdFullName : Nat := 4

/-- `TT_PLATFORM_MICROSOFT`. -/
def TTPlatformMicrosoft : Nat := 3

/-- SFNT-name scan loop of `MatchFontFamilyName` (source lines 653-672). -/
def MatchLoop (env : FTEnv) (face : FTFace) (family_name : String) : Nat → Nat → Bool
  | _, 0 => false
  | i, r + 1 =>
    match env.getSfntName face i with
    | none => MatchLoop env face family_name (i + 1) r
    | some sn =>
      if sn.name_id = TTNameIdFontFamily ∨ sn.name_id = TTNameIdFullName then
        let name_str := if sn.platform_id = TTPlatformMicrosoft then
            env.utf16beToString sn.bytes (sn.bytes.length / 2)
          else env.bytesToString sn.bytes
        if name_str = family_name then true else MatchLoop env face family_name (i + 1) r
      else MatchLoop env face family_name (i + 1) r

/-- `MatchFontFamilyName` (source lines 650-675). -/
def MatchFontFamilyName (env : FTEnv) (face : FTFace) (family_name : String) : Bool :=
  MatchLoop env face family_name 0 (env.sfntNameCount face)

/-! ## `LoadFontFace` (source lines 677-770) -/

/-- Outcome of `LoadFontFace`: `ub` marks the one path where the source
indexes `font_family_[0]` on an empty vector (no `begin_index` given and
the family list empty), which is undefined behavior in C++. -/
inductive LffOut where
  | ub
  | err (e : FontProviderError)
  | ok (face : FTFace) (idx : Nat)
deriving DecidableEq, Repr

/-- Result of `LoadFontFace`, with the possibly updated renderer state, the
provider queries made, and the number of face-open attempts. -/
structure LffResult where
  out : LffOut
  state : RState
  calls : List (String × Option Nat)
  opens : Nat
deriving Repr

/-- The provider walk of `LoadFontFace` (source lines 689-695): query the
family at the current index, and on error advance while `font_index + 1 <
font_family_.size()`.  The list argument is the suffix of the family list
from the current index `i`. -/
def ProviderLoop (env : FTEnv) (cp : Option Nat) :
    List String → Nat → Except FontProviderError (Nat × FontfaceInfo) × List (String × Option Nat)
  | [], _ => (.error .kFontNotFound, [])
  | [nm], i =>
    (match env.getFontFace nm cp with
     | .ok info => .ok (i, info)
     | .error e => .error e, [(nm, cp)])
  | nm :: nm2 :: rest, i =>
    match env.getFontFace nm cp with
    | .ok info => (.ok (i, info), [(nm, cp)])
    | .error _ =>
      let (r, cs) := ProviderLoop env cp (nm2 :: rest) (i + 1)
      (r, (nm, cp) :: cs)

/-- The negative-face-index search loop (source lines 743-767): reopen each
face of the collection in turn and accept the first whose PostScript name
or family name matches.  `num_faces` is a property of the underlying font
file, identical for every face opened from it, so the iteration bound is
read once.  The second component counts open attempts. -/
def NegIndexLoop (env : FTEnv) (use_memory : Bool) (data : List Nat)
    (filename psname famname : String) (j : Nat) : Nat → Nat → LffOut × Nat
  | _, 0 => (.err .kFontNotFound, 0)
  | i, r + 1 =>
    match (if use_memory then env.newMemoryFace data (Int.ofNat i) else env.newFace filename (Int.ofNat i)) with
    | none => (.err .kFontNotFound, 1)
    | some f =>
      if psname ≠ "" ∧ psname = env.postscriptName f then (.ok f j, 1)
      else if famname ≠ "" ∧ MatchFontFamilyName env f famname then (.ok f j, 1)
      else
        let (o, n) := NegIndexLoop env use_memory data filename psname famname j (i + 1) r
        (o, n + 1)

/-- `TextRendererFreetype::LoadFontFace` (source lines 677-770). -/
def LoadFontFace (env : FTEnv) (s : RState) (is_fallback : Bool)
    (codepoint : Option Nat) (begin_index : Option Nat) : LffResult :=
  -- line 681: an explicit begin_index at or past the end fails immediately
  if begin_index.any (fun n => s.font_family.length ≤ n) then
    { out := .err .kFontNotFound, state := s, calls := [], opens := 0 }
  else if s.font_family.isEmpty then
    -- begin_index is absent here and the family list is empty: the source
    -- evaluates font_family_[0] past the end (undefined behavior)
    { out := .ub, state := s, calls := [], opens := 0 }
  else
    let i := begin_index.getD 0
    let (r, calls) := ProviderLoop env codepoint (s.font_family.drop i) i
    match r with
    | .error e => { out := .err e, state := s, calls := calls, opens := 0 }
    | .ok (j, info) =>
      -- lines 703-716: for in-memory data, reset the slot face and move the
      -- buffer into the slot BEFORE opening
      let use_memory := ¬ info.font_data.isEmpty
      let s1 := if ¬ info.font_data.isEmpty then
          (if ¬ is_fallback then { s with main_face := none, main_face_data := info.font_data }
           else { s with fallback_face := none, fallback_face_data := info.font_data })
        else s
      let data := if is_fallback then s1.fallback_face_data else s1.main_face_data
      match (if use_memory then env.newMemoryFace data info.face_index
             else env.newFace info.filename info.face_index) with
      | none => { out := .err .kFontNotFound, state := s1, calls := calls, opens := 1 }
      | some face =>
        if 0 ≤ info.face_index then { out := .ok face j, state := s1, calls := calls, opens := 1 }
        else if info.family_name = "" ∧ info.postscript_name = "" then
          { out := .err .kOtherError, state := s1, calls := calls, opens := 1 }
        else
          let (o, n) := NegIndexLoop env use_memory data info.filename
              info.postscript_name info.family_name j 0 (env.numFaces face)
          { out := o, state := s1, calls := calls, opens := 1 + n }

/-! ## `DrawChar` (source lines 442-634) -/

/-- Modelled from the spec (section 3): `CharStyle` is a bitset over
`{Default, Stroke, Underline}`; the enum itself is declared in a public
header not under `src/`. -/
structure CharStyle where
  stroke : Bool
  underline : Bool
deriving DecidableEq, Repr

/-- Modelled from the spec (section 3): `UnderlineInfo` is
`{ start_x : int, width : int }`; declared in a public header not under
`src/`. -/
structure UnderlineInfo where
  start_x : Int
  width : Int
deriving DecidableEq, Repr

/-- Modelled from the spec (section 4.4): the fallback policy; the source
uses `kFailOnCodePointNotFound`, the spec calls the other value `Auto`. -/
inductive TextRenderFallbackPolicy where
  | kAutoFallback
  | kFailOnCodePointNotFound
deriving DecidableEq, Repr

/-- One canvas-mutating operation on the destination bitmap: the underline
rectangle fill (source line 610) or an alpha blit of a colored glyph bitmap
(source lines 620/630). -/
inductive CanvasOp where
  | drawRect (color : Nat) (left top right bottom : Int)
  | drawBitmap (color : Nat) (x y : Int) (bmp : Nat)
deriving DecidableEq, Repr

/-- The arguments of `DrawChar` after the render context.  `stroke_width`
(a C++ `float`) is modelled as a rational number: the code only compares it
with 0 and scales it by 64. -/
structure DrawArgs where
  target_x : Int
  target_y : Int
  ucs4 : Nat
  style : CharStyle
  color : Nat
  stroke_color : Nat
  stroke_width : Rat
  char_width : Int
  char_height : Int
  underline_info : Option UnderlineInfo
  fallback_policy : TextRenderFallbackPolicy

/-- The whitespace test of source lines 453-454. -/
def IsSpaceChar (ucs4 : Nat) : Bool :=
  ucs4 == 0x0009 || ucs4 == 0x0020 || ucs4 == 0x00A0 || ucs4 == 0x1680 ||
  ucs4 == 0x3000 || ucs4 == 0x202F || ucs4 == 0x205F || (0x2000 ≤ ucs4 && ucs4 ≤ 0x200A)

/-- `std::abs` on `int`. -/
def iabs (x : Int) : Int := if x < 0 then -x else x

/-- Arithmetic shift right by 6 (`>> 6` on the 26.6 fixed-point metric
values). -/
def asr6 (x : Int) : Int := Int.ediv x 64

/-- Outcome of face/glyph resolution (source lines 458-506): an early
`return` with a status, the undefined-behavior marker propagated from
`LoadFontFace`, or a selected face with a non-zero glyph index. -/
inductive FaceRes where
  | ub
  | ret (st : TextRenderStatus) (s : RState)
  | ok (s : RState) (face : FTFace) (glyph : Nat)
deriving DecidableEq, Repr

/-- Fallback-face loading (source lines 484-505), reached when the main
face lacks the glyph and the cached fallback face (if any) lacks it too. -/
def FallbackLoad (env : FTEnv) (s : RState) (ucs4 : Nat) :
    FaceRes × List (String × Option Nat) × Nat :=
  if s.main_face_index + 1 ≥ s.font_family.length then (.ret .kCodePointNotFound s, [], 0)
  else
    let r := LoadFontFace env s true (some ucs4) (some (s.main_face_index + 1))
    match r.out with
    | .ub => (.ub, r.calls, r.opens)
    | .err e => (.ret (FontProviderErrorToStatus e) r.state, r.calls, r.opens)
    | .ok f _idx =>
      let s2 := { r.state with fallback_face := some f }
      let g := env.getCharIndex f ucs4
      if g = 0 then (.ret .kCodePointNotFound s2, r.calls, r.opens)
      else (.ok s2 f g, r.calls, r.opens)

/-- Glyph resolution on the (already loaded) main face (source lines
471-506). -/
def ResolveGlyph (env : FTEnv) (s : RState) (face : FTFace) (ucs4 : Nat)
    (policy : TextRenderFallbackPolicy) : FaceRes × List (String × Option Nat) × Nat :=
  let glyph := env.getCharIndex face ucs4
  if glyph ≠ 0 then (.ok s face glyph, [], 0)
  else if policy = .kFailOnCodePointNotFound then (.ret .kCodePointNotFound s, [], 0)
  else
    match s.fallback_face with
    | some ff =>
      let g2 := env.getCharIndex ff ucs4
      if g2 ≠ 0 then (.ok s ff g2, [], 0) else FallbackLoad env s ucs4
    | none => FallbackLoad env s ucs4

/-- Face and glyph resolution of `DrawChar` (source lines 458-506): load
the main face if absent, then resolve the glyph with fallback handling. -/
def DrawCharResolve (env : FTEnv) (s : RState) (ucs4 : Nat)
    (policy : TextRenderFallbackPolicy) : FaceRes × List (String × Option Nat) × Nat :=
  match s.main_face with
  | some face => ResolveGlyph env s face ucs4 policy
  | none =>
    let r := LoadFontFace env s false none none
    match r.out with
    | .ub => (.ub, r.calls, r.opens)
    | .err e => (.ret (FontProviderErrorToStatus e) r.state, r.calls, r.opens)
    | .ok face idx =>
      let s1 := { r.state with main_face := some face, main_face_index := idx }
      let (fr, cs, op) := ResolveGlyph env s1 face ucs4 policy
      (fr, r.calls ++ cs, r.opens + op)

/-- Output of the half-width substitution step: the possibly updated state,
the possibly substituted glyph, the possibly promoted char width, and a
ghost record of the consulted map and incoming glyph. -/
structure HWOut where
  s : RState
  glyph : Nat
  char_width : Int
  ghost : Option (Nat × SubstMap)
deriving DecidableEq, Repr

/-- Outcome of the half-width step: `abnormal` when computing the
substitution map hit an out-of-bounds read or the non-terminating loop of
the GSUB parser. -/
inductive HWRes where
  | abnormal
  | ok (o : HWOut)
deriving DecidableEq, Repr

/-- Map computation of the half-width step (source lines 509-519): when the
selected face is the main (resp. cached fallback) face and that slot has no
cached substitution map yet, parse the face\'s GSUB table and cache the
result on the slot. -/
def EnsureSubstMap (env : FTEnv) (s : RState) (face : FTFace) : PRes RState :=
  if s.main_face = some face then
    match s.main_half_width_subst_map with
    | none =>
      (LoadGSUBTable (env.gsubTable face) kOpenTypeFeatureHalfWidth
          kOpenTypeScriptHiraganaKatakana kOpenTypeLangSysJapanese).bind fun m =>
      .ok { s with main_half_width_subst_map := some m }
    | some _ => .ok s
  else if s.fallback_face.isSome ∧ s.fallback_face = some face then
    match s.fallback_half_width_subst_map with
    | none =>
      (LoadGSUBTable (env.gsubTable face) kOpenTypeFeatureHalfWidth
          kOpenTypeScriptHiraganaKatakana kOpenTypeLangSysJapanese).bind fun m =>
      .ok { s with fallback_half_width_subst_map := some m }
    | some _ => .ok s
  else .ok s

/-- The slot map selected on source line 520:
`face == main_face_ ? main_half_width_subst_map_ : fallback_half_width_subst_map_`. -/
def SelectSubstMap (s : RState) (face : FTFace) : Option SubstMap :=
  if s.main_face = some face then s.main_half_width_subst_map
  else s.fallback_half_width_subst_map

/-- The half-width substitution step of `DrawChar` (source lines 508-528):
when `char_width == char_height / 2`, compute and cache the selected
slot\'s substitution map if absent, then substitute the glyph and promote
the width if the map contains it. -/
def DrawCharHalfWidth (env : FTEnv) (s : RState) (face : FTFace) (glyph : Nat)
    (cw ch : Int) : HWRes :=
  if cw = Int.tdiv ch 2 then
    match EnsureSubstMap env s face with
    | .oob => .abnormal
    | .hang => .abnormal
    | .ok s1 =>
      match SelectSubstMap s1 face with
      | some m =>
        match mapFind m glyph with
        | some g2 => .ok { s := s1, glyph := g2, char_width := ch, ghost := some (glyph, m) }
        | none => .ok { s := s1, glyph := glyph, char_width := cw, ghost := some (glyph, m) }
      | none => .ok { s := s1, glyph := glyph, char_width := cw, ghost := none }
  else .ok { s := s, glyph := glyph, char_width := cw, ghost := none }

/-- Output of the rasterization-and-composite phase. -/
structure RenderOut where
  status : TextRenderStatus
  ops : List CanvasOp
  pixelSizes : Option (Int × Int)
deriving DecidableEq, Repr

/-- The fallible preparation of the render phase (source lines 530-588):
pixel sizing, outline load, fill rasterization, and — when stroking is
requested — a second glyph fetch, border stroking and rasterization.  Any
failure is the source\'s `return TextRenderStatus::kOtherError`. -/
def RenderPrep (env : FTEnv) (face : FTFace) (glyph : Nat) (style : CharStyle)
    (sw : Rat) (cw ch : Int) : Except Unit (SizeMetrics × BitmapGlyph × Option BitmapGlyph) :=
  match env.setPixelSizes face cw ch with
  | none => .error ()
  | some metrics =>
    if env.loadGlyph face glyph = false then .error ()
    else
      match env.getGlyph face glyph with
      | none => .error ()
      | some glyph_image =>
        match env.glyphToBitmap glyph_image with
        | none => .error ()
        | some fill_bmp =>
          if style.stroke = true ∧ sw > 0 then
            match env.getGlyph face glyph with
            | none => .error ()
            | some stroke_glyph =>
              match env.glyphToBitmap (env.strokeBorder stroke_glyph (Rat.floor (sw * 64))) with
              | none => .error ()
              | some b => .ok (metrics, fill_bmp, some b)
          else .ok (metrics, fill_bmp, none)

/-- The canvas operations of the composite phase (source lines 535-542 for
the metric computation and 590-631 for the drawing): the underline
rectangle when requested and the underline thickness is positive, then the
stroked border blit, then the fill blit. -/
def ComposeOps (env : FTEnv) (tx ty : Int) (face : FTFace) (style : CharStyle)
    (color stroke_color : Nat) (ch : Int) (ui : Option UnderlineInfo)
    (metrics : SizeMetrics) (fill_bmp : BitmapGlyph) (border : Option BitmapGlyph) :
    List CanvasOp :=
  let baseline := asr6 metrics.ascender
  let ascender := asr6 metrics.ascender
  let descender := asr6 metrics.descender
  let underline := asr6 (env.mulFix (env.underlinePosition face) metrics.x_scale)
  let underline_thickness := asr6 (env.mulFix (env.underlineThickness face) metrics.x_scale)
  let em_height := ascender + iabs descender
  let em_adjust_y := Int.tdiv (ch - em_height) 2
  let underlineOps :=
    match ui with
    | some u =>
      if style.underline = true ∧ underline_thickness > 0 then
        let underline_y := ty + baseline + em_adjust_y + iabs underline
        let half := Int.tdiv underline_thickness 2
        let (top1, bottom1) :=
          if Int.tmod underline_thickness 2 ≠ 0 then (underline_y - half, underline_y + 1 + half)
          else (underline_y - (half - 1), underline_y + 1 + half)
        [CanvasOp.drawRect color u.start_x top1 (u.start_x + u.width) bottom1]
      else []
    | none => []
  let borderOps :=
    match border with
    | some b => [CanvasOp.drawBitmap stroke_color (tx + b.left)
        (ty + baseline + em_adjust_y - b.top) b.bmp]
    | none => []
  let fillOps := [CanvasOp.drawBitmap color (tx + fill_bmp.left)
      (ty + baseline + em_adjust_y - fill_bmp.top) fill_bmp.bmp]
  underlineOps ++ borderOps ++ fillOps

/-- The rasterization-and-composite phase of `DrawChar` (source lines
530-633): every fallible step (`RenderPrep`) completes before the first
canvas operation; the composite itself (`ComposeOps`) cannot fail and the
function then returns `kOK`. -/
def DrawCharRender (env : FTEnv) (tx ty : Int) (face : FTFace) (glyph : Nat)
    (style : CharStyle) (color stroke_color : Nat) (sw : Rat) (cw ch : Int)
    (ui : Option UnderlineInfo) : RenderOut :=
  match RenderPrep env face glyph style sw cw ch with
  | .error _ => { status := .kOtherError, ops := [], pixelSizes := some (cw, ch) }
  | .ok (metrics, fill_bmp, border) =>
    { status := .kOK,
      ops := ComposeOps env tx ty face style color stroke_color ch ui metrics fill_bmp border,
      pixelSizes := some (cw, ch) }

/-- Outcome of a whole `DrawChar` call: a returned status, or the marker
for a path whose C++ behavior is undefined or non-terminating. -/
inductive DrawOutcome where
  | ret (st : TextRenderStatus)
  | abnormal
deriving DecidableEq, Repr

/-- Result of a `DrawChar` call: outcome, final renderer state, the canvas
operations applied to the destination bitmap, the provider queries made,
the face-open attempts, and ghost observations (`pixelSizes`: the arguments
of the `FT_Set_Pixel_Sizes` call if reached; `halfWidth`: the glyph and map
consulted by the half-width step; `substGlyph`: the glyph index after the
half-width step). -/
structure DrawResult where
  outcome : DrawOutcome
  state : RState
  canvasOps : List CanvasOp
  providerCalls : List (String × Option Nat)
  openAttempts : Nat
  pixelSizes : Option (Int × Int)
  halfWidth : Option (Nat × SubstMap)
  substGlyph : Option Nat
deriving Repr

/-- `TextRendererFreetype::DrawChar` (source lines 442-634).  The
`assert(char_height > 0)` on line 447 is a debug-build precondition check
and compiles to nothing in release builds; it is modelled as a no-op. -/
def DrawChar (env : FTEnv) (s : RState) (a : DrawArgs) : DrawResult :=
  let sw := if a.stroke_width < 0 then 0 else a.stroke_width
  if IsSpaceChar a.ucs4 then
    { outcome := .ret .kOK, state := s, canvasOps := [], providerCalls := [],
      openAttempts := 0, pixelSizes := none, halfWidth := none, substGlyph := none }
  else
    match DrawCharResolve env s a.ucs4 a.fallback_policy with
    | (.ub, cs, op) =>
      { outcome := .abnormal, state := s, canvasOps := [], providerCalls := cs,
        openAttempts := op, pixelSizes := none, halfWidth := none, substGlyph := none }
    | (.ret st s1, cs, op) =>
      { outcome := .ret st, state := s1, canvasOps := [], providerCalls := cs,
        openAttempts := op, pixelSizes := none, halfWidth := none, substGlyph := none }
    | (.ok s1 face glyph, cs, op) =>
      match DrawCharHalfWidth env s1 face glyph a.char_width a.char_height with
      | .abnormal =>
        { outcome := .abnormal, state := s1, canvasOps := [], providerCalls := cs,
          openAttempts := op, pixelSizes := none, halfWidth := none, substGlyph := none }
      | .ok hw =>
        let r := DrawCharRender env a.target_x a.target_y face hw.glyph a.style a.color
            a.stroke_color sw hw.char_width a.char_height a.underline_info
        { outcome := .ret r.status, state := hw.s, canvasOps := r.ops, providerCalls := cs,
          openAttempts := op, pixelSizes := r.pixelSizes, halfWidth := hw.ghost,
          substGlyph := some hw.glyph }

/-! ## Concrete test environments and states -/

/-- An oracle environment in which every external call fails or returns a
trivial value; concrete scenarios override individual fields. -/
def defaultEnv : FTEnv where
  getFontFace := fun _ _ => .error .kFontNotFound
  newFace := fun _ _ => none
  newMemoryFace := fun _ _ => none
  numFaces := fun _ => 0
  postscriptName := fun _ => ""
  sfntNameCount := fun _ => 0
  getSfntName := fun _ _ => none
  utf16beToString := fun _ _ => ""
  bytesToString := fun _ => ""
  getCharIndex := fun _ _ => 0
  gsubTable := fun _ => none
  setPixelSizes := fun _ _ _ => none
  underlinePosition := fun _ => 0
  underlineThickness := fun _ => 0
  mulFix := fun _ _ => 0
  loadGlyph := fun _ _ => false
  getGlyph := fun _ _ => none
  glyphToBitmap := fun _ => none
  strokeBorder := fun g _ => g

/-! ## Claim C1 -/

/-- A 10-byte GSUB table whose `lookupListOffset` field is 0xFFFF. -/
def gsubLookupFarC1 : List Nat := [0, 0, 0, 0, 0, 0, 0, 0, 255, 255]

/-- C1: the claim states that the GSUB parser reads only byte indices
strictly below the buffer length, bounds-checking every multi-byte read and
returning an empty map on any failure.  The code violates this: (i) line
301 reads `lookup_count` at `lookup_list_offset` BEFORE the bounds check on
line 303, so a 10-byte table with `lookupListOffset = 0xFFFF` makes the
parser read bytes 65535 and 65536 of a 10-byte buffer; (ii) the size check
`gsub_size - 2 < 8` on line 283 underflows in unsigned `FT_ULong`
arithmetic for table sizes 0 and 1, so an empty table makes the parser read
bytes 4-9 of an empty buffer.  Both runs end in an out-of-bounds read, not
an empty map. -/
theorem loadGSUBTable_unchecked_reads :
    LoadGSUBTable (some gsubLookupFarC1) kOpenTypeFeatureHalfWidth
      kOpenTypeScriptHiraganaKatakana kOpenTypeLangSysJapanese = .oob ∧
    LoadGSUBTable (some []) kOpenTypeFeatureHalfWidth
      kOpenTypeScriptHiraganaKatakana kOpenTypeLangSysJapanese = .oob :=
  ⟨rfl, rfl⟩

/-! ## Claim C4 -/

/-- C4: the claim states that an absent GSUB table, or one shorter than 10
bytes, yields an empty map.  The absent case and sizes 2 through 9 do
return the empty map, but the size check `gsub_size - 2 < 8` (line 283) is
computed in unsigned `FT_ULong` arithmetic and underflows for sizes 0 and
1, so a 1-byte table slips past the check and the parser reads bytes 4 and
5 of a 1-byte buffer instead of returning empty. -/
theorem loadGSUBTable_short_tables :
    LoadGSUBTable none kOpenTypeFeatureHalfWidth
      kOpenTypeScriptHiraganaKatakana kOpenTypeLangSysJapanese = .ok [] ∧
    LoadGSUBTable (some [0, 0]) kOpenTypeFeatureHalfWidth
      kOpenTypeScriptHiraganaKatakana kOpenTypeLangSysJapanese = .ok [] ∧
    LoadGSUBTable (some [0, 0, 0, 0, 0, 0, 0, 0, 0]) kOpenTypeFeatureHalfWidth
      kOpenTypeScriptHiraganaKatakana kOpenTypeLangSysJapanese = .ok [] ∧
    LoadGSUBTable (some [0]) kOpenTypeFeatureHalfWidth
      kOpenTypeScriptHiraganaKatakana kOpenTypeLangSysJapanese = .oob :=
  ⟨rfl, rfl, rfl, rfl⟩

/-! ## Claim C9 -/

/-- A format-2 coverage table with the single range [0xFFFF, 0xFFFF] and
startCoverageIndex 0: valid per the claim, but the source's expansion loop
`for (uint16_t glyph_id = start; glyph_id <= end; glyph_id++)` never
terminates on it. -/
def covHangC9 : List Nat := [0, 2, 0, 1, 255, 255, 255, 255, 0, 0]

/-- C9: the claim states that a format-2 coverage table parses to the
inclusive expansion of its ranges exactly when every range satisfies
`startGlyphID ≤ endGlyphID` and `startCoverageIndex` equals the running
coverage index, with any violation or other format yielding failure.  The
failure directions hold (second through fifth conjuncts), but the success
direction is violated at `endGlyphID = 0xFFFF`: the range [0xFFFF, 0xFFFF]
with startCoverageIndex 0 satisfies the claimed validity condition, yet the
expansion loop increments a `uint16_t` that wraps from 0xFFFF to 0, so the
loop condition `glyph_id <= end_glyph_id` stays true forever and the parse
never returns (first conjunct). -/
theorem readCoverageTable_format2_behavior :
    ReadCoverageTable covHangC9 0 = .hang ∧
    ReadCoverageTable [0, 2, 0, 2, 0, 5, 0, 7, 0, 0, 0, 9, 0, 9, 0, 3] 0 = .ok (some [5, 6, 7, 9]) ∧
    ReadCoverageTable [0, 2, 0, 1, 0, 7, 0, 5, 0, 0] 0 = .ok none ∧
    ReadCoverageTable [0, 2, 0, 1, 0, 5, 0, 7, 0, 1] 0 = .ok none ∧
    ReadCoverageTable [0, 3] 0 = .ok none :=
  ⟨rfl, rfl, rfl, rfl, rfl⟩

/-! ## Claim C2 -/

/-- A renderer state with family list `["A"]`, a loaded main face and a
cached (nonempty) main half-width substitution map. -/
def sC2 : RState :=
  { font_family := ["A"], main_face := some 1, fallback_face := none,
    main_face_data := [], fallback_face_data := [], main_face_index := 0,
    main_half_width_subst_map := some [(7, 9)], fallback_half_width_subst_map := none }

/-- An environment whose provider resolves family `"B"` to a face (id 2)
that maps U+30A2 to glyph 7 and has no GSUB table at all. -/
def envC2 : FTEnv :=
  { defaultEnv with
    getFontFace := fun nm _ =>
      if nm = "B" then .ok { filename := "fB", face_index := 0, font_data := [],
                             family_name := "", postscript_name := "" }
      else .error .kFontNotFound
    newFace := fun nm idx => if nm = "fB" ∧ idx = 0 then some 2 else none
    getCharIndex := fun f u => if f = 2 ∧ u = 0x30A2 then 7 else 0 }

/-- A half-width draw request (char_width 16 = char_height 32 / 2) for
U+30A2. -/
def aC2 : DrawArgs :=
  { target_x := 0, target_y := 0, ucs4 := 0x30A2,
    style := { stroke := false, underline := false }, color := 0, stroke_color := 0,
    stroke_width := 0, char_width := 16, char_height := 32,
    underline_info := none, fallback_policy := .kAutoFallback }

/-- C2: the claim states that reassigning the family list to a different
list drops both face slots together with all of their cached data,
including each slot's cached half-width substitution map, so that a
subsequent half-width draw recomputes the map from the newly loaded face.
The code (source lines 63-70) resets the two faces, their buffers and the
primary face index but leaves `main_half_width_subst_map_` and
`fallback_half_width_subst_map_` untouched: after `SetFontFamily(["B"])`
on a state whose map was computed for the old face, the map is still
present (conjuncts 1-3), and the next half-width draw — which loads the new
face 2, a face with no GSUB table whatsoever (conjunct 4) — reuses the old
face's cached map, substituting glyph 7 by 9 and promoting the width to 32
instead of recomputing an empty map (conjuncts 5-6). -/
theorem setFontFamily_keeps_stale_subst_maps :
    (SetFontFamily sC2 ["B"]).2.main_face = none ∧
    (SetFontFamily sC2 ["B"]).2.font_family = ["B"] ∧
    (SetFontFamily sC2 ["B"]).2.main_half_width_subst_map = some [(7, 9)] ∧
    envC2.gsubTable 2 = none ∧
    (DrawChar envC2 (SetFontFamily sC2 ["B"]).2 aC2).substGlyph = some 9 ∧
    (DrawChar envC2 (SetFontFamily sC2 ["B"]).2 aC2).pixelSizes = some (32, 32) :=
  ⟨rfl, rfl, rfl, rfl, rfl, rfl⟩

/-! ## Whitespace handling: claims C8 and C10 -/

/-- The whitespace set listed in the specification implies the source's
`IsSpaceChar` test. -/
theorem isSpaceChar_of_set (u : Nat)
    (h : u = 0x0009 ∨ u = 0x0020 ∨ u = 0x00A0 ∨ u = 0x1680 ∨
         (0x2000 ≤ u ∧ u ≤ 0x200A) ∨ u = 0x202F ∨ u = 0x205F ∨ u = 0x3000) :
    IsSpaceChar u = true := by
  simp only [IsSpaceChar, Bool.or_eq_true, beq_iff_eq, Bool.and_eq_true, decide_eq_true_eq]
  omega

/-- C8: for every code point in the whitespace set {U+0009, U+0020, U+00A0,
U+1680, U+2000..U+200A, U+202F, U+205F, U+3000} and every combination of
the remaining arguments, `DrawChar` returns `OK` and performs no canvas
operation, so the destination bitmap is unchanged (source lines 452-456). -/
theorem drawChar_whitespace_ok (env : FTEnv) (s : RState) (a : DrawArgs)
    (h : a.ucs4 = 0x0009 ∨ a.ucs4 = 0x0020 ∨ a.ucs4 = 0x00A0 ∨ a.ucs4 = 0x1680 ∨
         (0x2000 ≤ a.ucs4 ∧ a.ucs4 ≤ 0x200A) ∨ a.ucs4 = 0x202F ∨ a.ucs4 = 0x205F ∨
         a.ucs4 = 0x3000) :
    (DrawChar env s a).outcome = .ret .kOK ∧ (DrawChar env s a).canvasOps = [] := by
  have hws := isSpaceChar_of_set a.ucs4 h
  simp [DrawChar, hws]

/-- C8 witness: the ideographic space U+3000 on a fresh renderer. -/
def aC8 : DrawArgs :=
  { target_x := 0, target_y := 0, ucs4 := 0x3000,
    style := { stroke := true, underline := true }, color := 1, stroke_color := 2,
    stroke_width := 1, char_width := 16, char_height := 32,
    underline_info := some { start_x := 0, width := 10 }, fallback_policy := .kAutoFallback }

/-- C8 witness. -/
theorem drawChar_whitespace_ok_witness :
    (aC8.ucs4 = 0x0009 ∨ aC8.ucs4 = 0x0020 ∨ aC8.ucs4 = 0x00A0 ∨ aC8.ucs4 = 0x1680 ∨
     (0x2000 ≤ aC8.ucs4 ∧ aC8.ucs4 ≤ 0x200A) ∨ aC8.ucs4 = 0x202F ∨ aC8.ucs4 = 0x205F ∨
     aC8.ucs4 = 0x3000) ∧
    (DrawChar defaultEnv emptyRState aC8).outcome = .ret .kOK ∧
    (DrawChar defaultEnv emptyRState aC8).canvasOps = [] :=
  ⟨by decide, drawChar_whitespace_ok defaultEnv emptyRState aC8 (by decide)⟩

/-- C10: for every code point in the whitespace set, `DrawChar` returns
before any face resolution: the renderer state (face slots, indices,
cached maps) is unchanged, no font-provider query is made and no face-open
attempt occurs — on every state, including a fresh renderer. -/
theorem drawChar_whitespace_no_side_effects (env : FTEnv) (s : RState) (a : DrawArgs)
    (h : a.ucs4 = 0x0009 ∨ a.ucs4 = 0x0020 ∨ a.ucs4 = 0x00A0 ∨ a.ucs4 = 0x1680 ∨
         (0x2000 ≤ a.ucs4 ∧ a.ucs4 ≤ 0x200A) ∨ a.ucs4 = 0x202F ∨ a.ucs4 = 0x205F ∨
         a.ucs4 = 0x3000) :
    (DrawChar env s a).state = s ∧ (DrawChar env s a).providerCalls = [] ∧
    (DrawChar env s a).openAttempts = 0 := by
  have hws := isSpaceChar_of_set a.ucs4 h
  simp [DrawChar, hws]

/-- C10 witness: the horizontal tab U+0009 on a fresh renderer. -/
def aC10 : DrawArgs :=
  { target_x := 5, target_y := 7, ucs4 := 0x0009,
    style := { stroke := false, underline := false }, color := 0, stroke_color := 0,
    stroke_width := 0, char_width := 18, char_height := 36,
    underline_info := none, fallback_policy := .kFailOnCodePointNotFound }

/-- C10 witness. -/
theorem drawChar_whitespace_no_side_effects_witness :
    (aC10.ucs4 = 0x0009 ∨ aC10.ucs4 = 0x0020 ∨ aC10.ucs4 = 0x00A0 ∨ aC10.ucs4 = 0x1680 ∨
     (0x2000 ≤ aC10.ucs4 ∧ aC10.ucs4 ≤ 0x200A) ∨ aC10.ucs4 = 0x202F ∨ aC10.ucs4 = 0x205F ∨
     aC10.ucs4 = 0x3000) ∧
    (DrawChar defaultEnv emptyRState aC10).state = emptyRState ∧
    (DrawChar defaultEnv emptyRState aC10).providerCalls = [] ∧
    (DrawChar defaultEnv emptyRState aC10).openAttempts = 0 :=
  ⟨by decide, drawChar_whitespace_no_side_effects defaultEnv emptyRState aC10 (by decide)⟩

/-! ## Claim C3: a failing draw leaves the bitmap untouched -/

/-- A non-`kOK` status from the rasterization phase comes with an empty
operation list. -/
theorem DrawCharRender_fail_ops (env : FTEnv) (tx ty : Int) (face glyph : Nat)
    (style : CharStyle) (color scolor : Nat) (sw : Rat) (cw ch : Int) (ui : Option UnderlineInfo)
    (h : (DrawCharRender env tx ty face glyph style color scolor sw cw ch ui).status ≠ .kOK) :
    (DrawCharRender env tx ty face glyph style color scolor sw cw ch ui).ops = [] := by
  unfold DrawCharRender at h ⊢
  rcases hp : RenderPrep env face glyph style sw cw ch with _ | ⟨m, f, b⟩ <;> simp [hp] at h ⊢

/-- The rasterization phase always records the pixel sizes it passed to
`FT_Set_Pixel_Sizes`. -/
theorem DrawCharRender_pixelSizes (env : FTEnv) (tx ty : Int) (face glyph : Nat)
    (style : CharStyle) (color scolor : Nat) (sw : Rat) (cw ch : Int) (ui : Option UnderlineInfo) :
    (DrawCharRender env tx ty face glyph style color scolor sw cw ch ui).pixelSizes = some (cw, ch) := by
  unfold DrawCharRender
  rcases hp : RenderPrep env face glyph style sw cw ch with _ | ⟨m, f, b⟩ <;> rfl

/-- C3: every `DrawChar` call that returns a status other than `OK`
performs no canvas operation — no underline rectangle and no bitmap blit —
because every fallible step precedes the first drawing step (source lines
530-588 before line 590). -/
theorem drawChar_non_ok_no_canvas_ops (env : FTEnv) (s : RState) (a : DrawArgs)
    (st : TextRenderStatus) (h : (DrawChar env s a).outcome = .ret st) (hne : st ≠ .kOK) :
    (DrawChar env s a).canvasOps = [] := by
  by_cases hws : IsSpaceChar a.ucs4
  · simp [DrawChar, hws] at h
    exact absurd h.symm hne
  · simp only [DrawChar, Bool.not_eq_true] at h ⊢
    rw [if_neg (by simp [hws])] at h ⊢
    split at h
    · rfl
    · rfl
    · split at h
      · rfl
      · simp only at h ⊢
        apply DrawCharRender_fail_ops
        intro hok
        rw [hok] at h
        simp only [DrawOutcome.ret.injEq] at h
        exact hne h.symm

/-- A state whose family list has one entry; with `defaultEnv` the provider
fails, so a draw of a printable character fails with `FontNotFound`. -/
def sC3 : RState := { emptyRState with font_family := ["x"] }

/-- Arguments drawing the printable character U+0041. -/
def aC3 : DrawArgs :=
  { target_x := 0, target_y := 0, ucs4 := 0x41,
    style := { stroke := false, underline := false }, color := 0, stroke_color := 0,
    stroke_width := 0, char_width := 32, char_height := 32,
    underline_info := none, fallback_policy := .kAutoFallback }

/-- C3 witness: a draw whose face resolution fails returns `kFontNotFound`
and performs no canvas operation. -/
theorem drawChar_non_ok_no_canvas_ops_witness :
    (DrawChar defaultEnv sC3 aC3).outcome = .ret .kFontNotFound ∧
    (DrawChar defaultEnv sC3 aC3).canvasOps = [] :=
  ⟨rfl, drawChar_non_ok_no_canvas_ops defaultEnv sC3 aC3 .kFontNotFound rfl (by decide)⟩

/-! ## Claim C7: half-width substitution and width promotion -/

/-- What the half-width step's ghost record determines: the recorded glyph
is the resolved glyph, and the outgoing glyph and char width follow the
lookup in the recorded map. -/
theorem halfWidth_ghost_spec (env : FTEnv) (s : RState) (face glyph : Nat) (cw ch : Int)
    (hw : HWOut) (h : DrawCharHalfWidth env s face glyph cw ch = .ok hw)
    (g : Nat) (m : SubstMap) (hg : hw.ghost = some (g, m)) :
    g = glyph ∧
    hw.glyph = (mapFind m g).getD glyph ∧
    hw.char_width = (if (mapFind m g).isSome then ch else cw) := by
  unfold DrawCharHalfWidth at h
  split at h
  · split at h
    · exact absurd h (by simp)
    · exact absurd h (by simp)
    · split at h
      · split at h <;> rename_i hfind
        · injection h with h1
          subst h1
          simp only [Option.some.injEq, Prod.mk.injEq] at hg
          obtain ⟨hg1, hg2⟩ := hg
          subst hg1; subst hg2
          simp [hfind]
        · injection h with h1
          subst h1
          simp only [Option.some.injEq, Prod.mk.injEq] at hg
          obtain ⟨hg1, hg2⟩ := hg
          subst hg1; subst hg2
          simp [hfind]
      · injection h with h1
        subst h1
        simp at hg
  · injection h with h1
    subst h1
    simp at hg

/-- C7: for every `DrawChar` call with `char_width = char_height / 2`
(truncating integer division), letting `g` be the resolved glyph and `m`
the selected slot's substitution map: if `m` contains `g` the glyph is
replaced by the mapped identifier and the pixel sizes passed to
`FT_Set_Pixel_Sizes` are `(char_height, char_height)`; if it does not, the
glyph and `char_width` are passed on unchanged (source lines 508-533). -/
theorem drawChar_halfwidth_promotion (env : FTEnv) (s : RState) (a : DrawArgs)
    (_hcw : a.char_width = Int.tdiv a.char_height 2)
    (g : Nat) (m : SubstMap)
    (hg : (DrawChar env s a).halfWidth = some (g, m)) :
    (DrawChar env s a).substGlyph = some ((mapFind m g).getD g) ∧
    (DrawChar env s a).pixelSizes =
      some ((if (mapFind m g).isSome then a.char_height else a.char_width), a.char_height) := by
  by_cases hws : IsSpaceChar a.ucs4
  · simp [DrawChar, hws] at hg
  · simp only [DrawChar, Bool.not_eq_true] at hg ⊢
    rw [if_neg (by simp [hws])] at hg ⊢
    split at hg
    · simp at hg
    · simp at hg
    · split at hg
      · simp at hg
      · rename_i hw heq2
        simp only at hg ⊢
        obtain ⟨hgg, hglyph, hcw2⟩ :=
          halfWidth_ghost_spec env _ _ _ a.char_width a.char_height hw heq2 g m hg
        subst hgg
        refine ⟨by rw [hglyph], ?_⟩
        rw [DrawCharRender_pixelSizes, hcw2]

/-- C7 witness environment: family `"w"` resolves to face 3, which maps
U+0041 to glyph 5 and has no GSUB table (its substitution map is empty). -/
def envC7 : FTEnv :=
  { defaultEnv with
    getFontFace := fun nm _ =>
      if nm = "w" then .ok { filename := "fw", face_index := 0, font_data := [],
                             family_name := "", postscript_name := "" }
      else .error .kFontNotFound
    newFace := fun nm idx => if nm = "fw" ∧ idx = 0 then some 3 else none
    getCharIndex := fun f u => if f = 3 ∧ u = 0x41 then 5 else 0 }

/-- C7 witness state. -/
def sC7 : RState := { emptyRState with font_family := ["w"] }

/-- C7 witness arguments: a half-width request (16 = 32 / 2). -/
def aC7 : DrawArgs :=
  { target_x := 0, target_y := 0, ucs4 := 0x41,
    style := { stroke := false, underline := false }, color := 0, stroke_color := 0,
    stroke_width := 0, char_width := 16, char_height := 32,
    underline_info := none, fallback_policy := .kAutoFallback }

/-- C7 witness: with the empty substitution map the glyph and the half
width pass through unchanged. -/
theorem drawChar_halfwidth_promotion_witness :
    aC7.char_width = Int.tdiv aC7.char_height 2 ∧
    (DrawChar envC7 sC7 aC7).halfWidth = some (5, []) ∧
    (DrawChar envC7 sC7 aC7).substGlyph = some 5 ∧
    (DrawChar envC7 sC7 aC7).pixelSizes = some (16, 32) := by
  have h := drawChar_halfwidth_promotion envC7 sC7 aC7 (by decide) 5 [] rfl
  exact ⟨by decide, rfl, by simpa using h.1, by simpa using h.2⟩

/-! ## Claim C6: outline-library failures -/

/-- Each of the four outline-library failure modes of the draw path makes
the fallible preparation fail. -/
theorem renderPrep_failure_modes (env : FTEnv) (face : FTFace) (glyph : Nat)
    (style : CharStyle) (sw : Rat) (cw ch : Int) :
    (env.setPixelSizes face cw ch = none → RenderPrep env face glyph style sw cw ch = .error ()) ∧
    (∀ me, env.setPixelSizes face cw ch = some me → env.loadGlyph face glyph = false →
      RenderPrep env face glyph style sw cw ch = .error ()) ∧
    (∀ me, env.setPixelSizes face cw ch = some me → env.loadGlyph face glyph = true →
      env.getGlyph face glyph = none → RenderPrep env face glyph style sw cw ch = .error ()) ∧
    (∀ me gl, env.setPixelSizes face cw ch = some me → env.loadGlyph face glyph = true →
      env.getGlyph face glyph = some gl → env.glyphToBitmap gl = none →
      RenderPrep env face glyph style sw cw ch = .error ()) := by
  refine ⟨fun h1 => ?_, fun me h1 h2 => ?_, fun me h1 h2 h3 => ?_, fun me gl h1 h2 h3 h4 => ?_⟩ <;>
    simp [RenderPrep, h1, *]

/-- When face and glyph resolution and the half-width step have completed
and the fallible preparation fails, the call returns `kOtherError`, the
final state is exactly the state produced by the half-width step, and no
canvas operation occurs. -/
theorem drawChar_render_failure_frame (env : FTEnv) (s : RState) (a : DrawArgs)
    (hws : IsSpaceChar a.ucs4 = false)
    (s1 : RState) (face : FTFace) (glyph : Nat) (cs : List (String × Option Nat)) (op : Nat)
    (hr : DrawCharResolve env s a.ucs4 a.fallback_policy = (.ok s1 face glyph, cs, op))
    (hw : HWOut)
    (hh : DrawCharHalfWidth env s1 face glyph a.char_width a.char_height = .ok hw)
    (hp : RenderPrep env face hw.glyph a.style
        (if a.stroke_width < 0 then 0 else a.stroke_width) hw.char_width a.char_height = .error ()) :
    (DrawChar env s a).outcome = .ret .kOtherError ∧
    (DrawChar env s a).state = hw.s ∧
    (DrawChar env s a).canvasOps = [] := by
  simp only [DrawChar, hws, Bool.false_eq_true, if_false, hr]
  simp [hh, DrawCharRender, hp]

/-- C6 (amended): each outline-library failure in the draw path — pixel
size setting, glyph load, glyph get, and bitmap conversion — is surfaced
as `kOtherError` and leaves the renderer state exactly as the preparation
phases left it (no slot, buffer, index or cached map is touched by the
failing rasterization).  Face opening, which the original claim also
listed, is settled separately: it fails with `kFontNotFound`, not
`kOtherError`, and after mutating the slot (see
`loadFontFace_open_failure_counterexample`). -/
theorem drawChar_outline_failures (env : FTEnv) (s : RState) (a : DrawArgs)
    (hws : IsSpaceChar a.ucs4 = false)
    (s1 : RState) (face : FTFace) (glyph : Nat) (cs : List (String × Option Nat)) (op : Nat)
    (hr : DrawCharResolve env s a.ucs4 a.fallback_policy = (.ok s1 face glyph, cs, op))
    (hw : HWOut)
    (hh : DrawCharHalfWidth env s1 face glyph a.char_width a.char_height = .ok hw) :
    (env.setPixelSizes face hw.char_width a.char_height = none →
      (DrawChar env s a).outcome = .ret .kOtherError ∧ (DrawChar env s a).state = hw.s ∧
      (DrawChar env s a).canvasOps = []) ∧
    (∀ me, env.setPixelSizes face hw.char_width a.char_height = some me →
      env.loadGlyph face hw.glyph = false →
      (DrawChar env s a).outcome = .ret .kOtherError ∧ (DrawChar env s a).state = hw.s ∧
      (DrawChar env s a).canvasOps = []) ∧
    (∀ me, env.setPixelSizes face hw.char_width a.char_height = some me →
      env.loadGlyph face hw.glyph = true → env.getGlyph face hw.glyph = none →
      (DrawChar env s a).outcome = .ret .kOtherError ∧ (DrawChar env s a).state = hw.s ∧
      (DrawChar env s a).canvasOps = []) ∧
    (∀ me gl, env.setPixelSizes face hw.char_width a.char_height = some me →
      env.loadGlyph face hw.glyph = true → env.getGlyph face hw.glyph = some gl →
      env.glyphToBitmap gl = none →
      (DrawChar env s a).outcome = .ret .kOtherError ∧ (DrawChar env s a).state = hw.s ∧
      (DrawChar env s a).canvasOps = []) := by
  obtain ⟨m1, m2, m3, m4⟩ := renderPrep_failure_modes env face hw.glyph a.style
    (if a.stroke_width < 0 then 0 else a.stroke_width) hw.char_width a.char_height
  exact ⟨fun h1 => drawChar_render_failure_frame env s a hws s1 face glyph cs op hr hw hh (m1 h1),
    fun me h1 h2 => drawChar_render_failure_frame env s a hws s1 face glyph cs op hr hw hh (m2 me h1 h2),
    fun me h1 h2 h3 => drawChar_render_failure_frame env s a hws s1 face glyph cs op hr hw hh (m3 me h1 h2 h3),
    fun me gl h1 h2 h3 h4 => drawChar_render_failure_frame env s a hws s1 face glyph cs op hr hw hh (m4 me gl h1 h2 h3 h4)⟩

/-- C6 witness environment: a loaded main face 6 mapping U+0041 to glyph
5; `setPixelSizes` (from `defaultEnv`) fails. -/
def envC6w : FTEnv :=
  { defaultEnv with getCharIndex := fun f u => if f = 6 ∧ u = 0x41 then 5 else 0 }

/-- C6 witness state: the main face is already loaded. -/
def sC6w : RState := { emptyRState with font_family := ["w"], main_face := some 6 }

/-- C6 witness arguments: a full-width draw of U+0041. -/
def aC6w : DrawArgs :=
  { target_x := 0, target_y := 0, ucs4 := 0x41,
    style := { stroke := false, underline := false }, color := 0, stroke_color := 0,
    stroke_width := 0, char_width := 30, char_height := 32,
    underline_info := none, fallback_policy := .kAutoFallback }

/-- The half-width output of the C6 witness run (no substitution: 30 is
not 32 / 2). -/
def hwC6 : HWOut := { s := sC6w, glyph := 5, char_width := 30, ghost := none }

/-- C6 witness: a failing `FT_Set_Pixel_Sizes` yields `kOtherError`, an
unchanged state and no canvas operation. -/
theorem drawChar_outline_failures_witness :
    envC6w.setPixelSizes 6 30 32 = none ∧
    (DrawChar envC6w sC6w aC6w).outcome = .ret .kOtherError ∧
    (DrawChar envC6w sC6w aC6w).state = sC6w ∧
    (DrawChar envC6w sC6w aC6w).canvasOps = [] :=
  ⟨rfl, (drawChar_outline_failures envC6w sC6w aC6w rfl sC6w 6 5 [] 0 rfl hwC6 rfl).1 rfl⟩

/-- C6 counterexample environment: the provider returns in-memory font
data for family `"a"`, and opening the memory face fails. -/
def envC6 : FTEnv :=
  { defaultEnv with
    getFontFace := fun nm _ =>
      if nm = "a" then .ok { filename := "", face_index := 0, font_data := [9],
                             family_name := "", postscript_name := "" }
      else .error .kFontNotFound }

/-- C6 counterexample state: a loaded main face with its own data buffer. -/
def sC6 : RState :=
  { emptyRState with
    font_family := ["a"]
    main_face := some 5
    main_face_data := [1, 2] }

/-- C6 counterexample: a face-opening failure is surfaced as
`kFontNotFound`, not `kOtherError`, and by the time it is returned the
main slot's face has been reset and its data buffer replaced — the slot
state is not left unchanged (source lines 705-731). -/
theorem loadFontFace_open_failure_counterexample :
    (LoadFontFace envC6 sC6 false none none).out = .err .kFontNotFound ∧
    (FontProviderError.kFontNotFound ≠ FontProviderError.kOtherError) ∧
    (LoadFontFace envC6 sC6 false none none).state.main_face = none ∧
    (LoadFontFace envC6 sC6 false none none).state.main_face_data = [9] ∧
    sC6.main_face = some 5 ∧ sC6.main_face_data = [1, 2] :=
  ⟨rfl, by decide, rfl, rfl, rfl, rfl⟩

/-! ## Claim C5: the `LoadFontFace` family walk -/

/-- From the amended claim's words: the first index at or after the current
one whose provider query succeeds, with the info it returned. -/
def firstProviderSuccess (q : String → Except FontProviderError FontfaceInfo) :
    List String → Nat → Option (Nat × FontfaceInfo)
  | [], _ => none
  | [nm], i =>
    match q nm with
    | .ok info => some (i, info)
    | .error _ => none
  | nm :: nm2 :: rest, i =>
    match q nm with
    | .ok info => some (i, info)
    | .error _ => firstProviderSuccess q (nm2 :: rest) (i + 1)

/-- From the amended claim's words: the provider error produced for the
last family of the list (the last query the walk makes when every family
fails). -/
def lastFamilyError (q : String → Except FontProviderError FontfaceInfo) :
    List String → FontProviderError
  | [] => .kFontNotFound
  | [nm] =>
    match q nm with
    | .error e => e
    | .ok _ => .kFontNotFound
  | _ :: nm2 :: rest => lastFamilyError q (nm2 :: rest)

/-- The provider loop of `LoadFontFace` returns the first provider success
with its index, and otherwise the error of the last query. -/
theorem providerLoop_spec (env : FTEnv) (cp : Option Nat) :
    ∀ (rest : List String) (i : Nat),
    (firstProviderSuccess (fun nm => env.getFontFace nm cp) rest i = none → rest ≠ [] →
      (ProviderLoop env cp rest i).1 =
        .error (lastFamilyError (fun nm => env.getFontFace nm cp) rest)) ∧
    (∀ j info, firstProviderSuccess (fun nm => env.getFontFace nm cp) rest i = some (j, info) →
      (ProviderLoop env cp rest i).1 = .ok (j, info))
  | [], i => by
    constructor
    · intro _ h; exact absurd rfl h
    · intro j info h; simp [firstProviderSuccess] at h
  | [nm], i => by
    constructor
    · intro hf _
      cases hq : env.getFontFace nm cp with
      | ok info => simp [firstProviderSuccess, hq] at hf
      | error e => simp [ProviderLoop, lastFamilyError, hq]
    · intro j info hf
      cases hq : env.getFontFace nm cp with
      | ok info2 =>
        simp only [firstProviderSuccess, hq, Option.some.injEq, Prod.mk.injEq] at hf
        simp [ProviderLoop, hq, hf.1, hf.2]
      | error e => simp [firstProviderSuccess, hq] at hf
  | nm :: nm2 :: rest, i => by
    constructor
    · intro hf _
      cases hq : env.getFontFace nm cp with
      | ok info => simp [firstProviderSuccess, hq] at hf
      | error e =>
        simp only [firstProviderSuccess, hq] at hf
        have ih := (providerLoop_spec env cp (nm2 :: rest) (i + 1)).1 hf (by simp)
        simp only [ProviderLoop, hq, lastFamilyError]
        rcases hpl : ProviderLoop env cp (nm2 :: rest) (i + 1) with ⟨r, cs⟩
        rw [hpl] at ih
        exact ih
    · intro j info hf
      cases hq : env.getFontFace nm cp with
      | ok info2 =>
        simp only [firstProviderSuccess, hq, Option.some.injEq, Prod.mk.injEq] at hf
        simp [ProviderLoop, hq, hf.1, hf.2]
      | error e =>
        simp only [firstProviderSuccess, hq] at hf
        have ih := (providerLoop_spec env cp (nm2 :: rest) (i + 1)).2 j info hf
        simp only [ProviderLoop, hq]
        rcases hpl : ProviderLoop env cp (nm2 :: rest) (i + 1) with ⟨r, cs⟩
        rw [hpl] at ih
        exact ih

/-- A success of the negative-face-index search always carries the family
index `j` the provider walk produced. -/
theorem negIndexLoop_ok_idx (env : FTEnv) (um : Bool) (data : List Nat)
    (fn ps fam : String) (j : Nat) :
    ∀ (i r : Nat) (f k : Nat),
    (NegIndexLoop env um data fn ps fam j i r).1 = .ok f k → k = j
  | i, 0, f, k => by simp [NegIndexLoop]
  | i, r + 1, f, k => by
    simp only [NegIndexLoop]
    cases hq : (if um then env.newMemoryFace data (Int.ofNat i) else env.newFace fn (Int.ofNat i)) with
    | none => simp
    | some fc =>
      simp only
      split
      · intro h; injection h with _ h2; exact h2.symm
      · split
        · intro h; injection h with _ h2; exact h2.symm
        · rcases hnl : NegIndexLoop env um data fn ps fam j (i + 1) r with ⟨o, n⟩
          simp only
          intro h
          have := negIndexLoop_ok_idx env um data fn ps fam j (i + 1) r f k
          rw [hnl] at this
          exact this h

/-- C5 (amended): `LoadFontFace` walks the family list from `begin_index`
(default 0), advancing to the next family on each provider error.  An
explicit `begin_index` at or past the end of the family list fails with
`kFontNotFound` (first conjunct).  When no family yields a provider
success, the call fails with the error of the LAST provider query — not
necessarily `kFontNotFound` as the original claim stated (second
conjunct).  When the first provider success happens at family index `j`,
every successful result is paired with `j` (third conjunct), and in
particular a path-based open of a non-negative face index returns that
face paired with `j` (fourth conjunct). -/
theorem loadFontFace_walk (env : FTEnv) (s : RState) (isf : Bool) (cp bi : Option Nat) :
    (∀ n, bi = some n → s.font_family.length ≤ n →
      (LoadFontFace env s isf cp bi).out = .err .kFontNotFound) ∧
    ((match bi with | some n => n < s.font_family.length | none => s.font_family ≠ []) →
      (firstProviderSuccess (fun nm => env.getFontFace nm cp)
          (s.font_family.drop (bi.getD 0)) (bi.getD 0) = none →
        (LoadFontFace env s isf cp bi).out =
          .err (lastFamilyError (fun nm => env.getFontFace nm cp)
            (s.font_family.drop (bi.getD 0)))) ∧
      (∀ j info, firstProviderSuccess (fun nm => env.getFontFace nm cp)
            (s.font_family.drop (bi.getD 0)) (bi.getD 0) = some (j, info) →
        (∀ f k, (LoadFontFace env s isf cp bi).out = .ok f k → k = j) ∧
        (info.font_data = [] → 0 ≤ info.face_index →
          ∀ f, env.newFace info.filename info.face_index = some f →
            (LoadFontFace env s isf cp bi).out = .ok f j))) := by
  constructor
  · intro n hbi hlen
    subst hbi
    simp [LoadFontFace, Option.any, hlen]
  · intro hb
    have hcond : (bi.any fun n => decide (s.font_family.length ≤ n)) = false := by
      cases bi with
      | none => rfl
      | some n =>
        simp only [Option.any, decide_eq_false_iff_not, not_le]
        simpa using hb
    have hne : s.font_family ≠ [] := by
      cases bi with
      | none => exact hb
      | some n => intro he; rw [he] at hb; simp at hb
    have hdrop : s.font_family.drop (bi.getD 0) ≠ [] := by
      cases bi with
      | none => simpa using hne
      | some n =>
        simp only [Option.getD]
        intro he
        have := List.drop_eq_nil_iff.mp he
        simp at hb
        omega
    constructor
    · intro hf
      simp only [LoadFontFace, hcond, Bool.false_eq_true, if_false,
        List.isEmpty_eq_true, hne, if_neg hne]
      have hpl := (providerLoop_spec env cp (s.font_family.drop (bi.getD 0)) (bi.getD 0)).1 hf hdrop
      rcases hplr : ProviderLoop env cp (s.font_family.drop (bi.getD 0)) (bi.getD 0) with ⟨r, cs⟩
      rw [hplr] at hpl
      simp only at hpl
      rw [hpl]
    · intro j info hf
      have hpl := (providerLoop_spec env cp (s.font_family.drop (bi.getD 0)) (bi.getD 0)).2 j info hf
      constructor
      · intro f k hout
        simp only [LoadFontFace, hcond, Bool.false_eq_true, if_false,
          List.isEmpty_eq_true, hne, if_neg hne] at hout
        rcases hplr : ProviderLoop env cp (s.font_family.drop (bi.getD 0)) (bi.getD 0) with ⟨r, cs⟩
        rw [hplr] at hpl hout
        simp only at hpl
        rw [hpl] at hout
        simp only at hout
        repeat' split at hout
        all_goals simp only at hout
        all_goals
          first
          | (rw [LffOut.ok.injEq] at hout; exact hout.2.symm)
          | exact negIndexLoop_ok_idx env _ _ _ _ _ j 0 _ f k hout
          | simp at hout
      · intro hdata hidx f hopen
        simp only [LoadFontFace, hcond, Bool.false_eq_true, if_false,
          List.isEmpty_eq_true, hne, if_neg hne]
        rcases hplr : ProviderLoop env cp (s.font_family.drop (bi.getD 0)) (bi.getD 0) with ⟨r, cs⟩
        rw [hplr] at hpl
        simp only at hpl
        rw [hpl]
        simp only [hdata, List.isEmpty_nil, not_true_eq_false, if_false, ite_false, hopen]
        simp [hidx]

/-- C5 counterexample environment: the provider fails every query with
`kOtherError`. -/
def envC5 : FTEnv := { defaultEnv with getFontFace := fun _ _ => .error .kOtherError }

/-- C5 counterexample state: a single-family list. -/
def sC5 : RState := { emptyRState with font_family := ["a"] }

/-- C5 counterexample: when no family yields a provider success, the call
fails with the LAST provider error (`return Err(result.error())`, source
line 698), which here is `kOtherError` — not `kFontNotFound` as the claim
states. -/
theorem loadFontFace_last_error_counterexample :
    (LoadFontFace envC5 sC5 false none none).out = .err .kOtherError ∧
    (LoadFontFace envC5 sC5 false none none).out ≠ .err .kFontNotFound :=
  ⟨rfl, by decide⟩

/-- C5 witness environment: family `"x"` fails with `kFontNotFound`,
family `"y"` succeeds with a path-openable face of index 0. -/
def envC5w : FTEnv :=
  { defaultEnv with
    getFontFace := fun nm _ =>
      if nm = "y" then .ok { filename := "p", face_index := 0, font_data := [],
                             family_name := "", postscript_name := "" }
      else .error .kFontNotFound
    newFace := fun nm idx => if nm = "p" ∧ idx = 0 then some 7 else none }

/-- C5 witness state. -/
def sC5w : RState := { emptyRState with font_family := ["x", "y"] }

/-- The info the C5 witness provider returns for family `"y"`. -/
def infoC5 : FontfaceInfo :=
  { filename := "p", face_index := 0, font_data := [], family_name := "", postscript_name := "" }

/-- C5 witness: with the first family failing and the second succeeding,
the walk opens the second family's face and pairs it with index 1. -/
theorem loadFontFace_walk_witness :
    firstProviderSuccess (fun nm => envC5w.getFontFace nm none)
      (sC5w.font_family.drop ((none : Option Nat).getD 0)) ((none : Option Nat).getD 0) =
      some (1, infoC5) ∧
    (LoadFontFace envC5w sC5w false none none).out = .ok 7 1 := by
  have h := ((loadFontFace_walk envC5w sC5w false none none).2 (by decide)).2 1 infoC5 rfl
  exact ⟨rfl, h.2 rfl (by decide) 7 rfl⟩
